import Mathlib

/-!
Verification development for the nvFuser python operator-conformance test
harness (files `python_tests/pytest_ops.py` and
`python_tests/pytest_input_generators.py`).

The Python code is shallowly embedded: the pure argument-adaptation
functions become Lean functions, Python `assert` failures and raised
exceptions become `Except.error`, the in-place mutation of
`opinfo.symbolic_parameter_list` is made explicit by returning the updated
field, and the process-global torch random-number generator consumed by
`torch.testing.make_tensor` is threaded as an explicit state value.
-/

/-! ## String containment

The snippets compare exception messages by substring containment
(Python's `s in str(e)`).  We embed that check as an executable search
over character lists. -/

/-- `listStartsWith l p` is true when `p` is an initial segment of `l`. -/
def listStartsWith : List Char → List Char → Bool
  | _, [] => true
  | [], _ :: _ => false
  | c :: cs, p :: ps => c == p && listStartsWith cs ps

/-- `listContainsSub l p` is true when `p` occurs contiguously inside `l`. -/
def listContainsSub : List Char → List Char → Bool
  | [], p => p.isEmpty
  | c :: cs, p => listStartsWith (c :: cs) p || listContainsSub cs p

/-- `strContainsSub s pat` embeds Python's `pat in s` on strings. -/
def strContainsSub (s pat : String) : Bool :=
  listContainsSub s.data pat.data

/-- `exceptIsOk r` is true exactly on successful results. -/
def exceptIsOk {ε α : Type} : Except ε α → Bool
  | Except.ok _ => true
  | Except.error _ => false

/-! ## Runtime argument values (`pytest_ops.py`)

`parse_inputs_fusion_definition` dispatches on the runtime type of each
positional argument: `torch.Tensor`, `list`, `tuple`, or anything else
(scalar).  `Arg` carries one constructor per branch. -/

/-- A positional argument of a `SampleInput`, as classified by
`parse_inputs_fusion_definition`. -/
inductive Arg
  | tensor (id : Nat)
  | listArg (xs : List Int)
  | tupleArg (xs : List Int)
  | scalar (v : Int)
deriving DecidableEq

/-- `type(a) is torch.Tensor` on an embedded argument. -/
def Arg.isTensor : Arg → Bool
  | Arg.tensor _ => true
  | _ => false

/-- The value appended to `nvf_args` for one positional argument:
a traced placeholder created by `fd.from_pytorch` / `fd.define_vector` /
`fd.define_scalar`, or the raw value passed through for a
concrete-marked position. -/
inductive NvfArg
  | fromPytorch (id : Nat)
  | defineVector (xs : List Int)
  | defineScalar (a : Arg)
  | concrete (a : Arg)
deriving DecidableEq

/-- The placeholder built for one symbolic-marked argument
(the `if is_symbolic` branch of `parse_inputs_fusion_definition`). -/
def adaptSymbolic : Arg → NvfArg
  | Arg.tensor id => NvfArg.fromPytorch id
  | Arg.listArg xs => NvfArg.defineVector xs
  | Arg.tupleArg xs => NvfArg.defineVector xs
  | Arg.scalar v => NvfArg.defineScalar (Arg.scalar v)

/-- The `for is_symbolic, a in zip(...)` loop body of
`parse_inputs_fusion_definition`.  `zip` truncates at the shorter list;
a concrete-marked tensor trips `assert type(a) is not torch.Tensor`. -/
def adaptArgs : List Bool → List Arg → Except String (List NvfArg)
  | [], _ => Except.ok []
  | _ :: _, [] => Except.ok []
  | true :: bs, a :: rest =>
    match adaptArgs bs rest with
    | Except.ok r => Except.ok (adaptSymbolic a :: r)
    | Except.error e => Except.error e
  | false :: bs, a :: rest =>
    if a.isTensor then Except.error "assert type(a) is not torch.Tensor"
    else
      match adaptArgs bs rest with
      | Except.ok r => Except.ok (NvfArg.concrete a :: r)
      | Except.error e => Except.error e

/-- Embedding of `parse_inputs_fusion_definition(fd, opinfo, *args)`.

The Python function mutates `opinfo.symbolic_parameter_list` in place
(setting it to `[True] * len(args)` when it is `None` and `args` is
nonempty); the embedding returns the field's post-call value alongside
the built `nvf_args`.  Python `assert` failures become `Except.error`. -/
def parse_inputs_fusion_definition (spl : Option (List Bool)) (args : List Arg) :
    Except String (Option (List Bool) × List NvfArg) :=
  if args.length = 0 then Except.ok (spl, [])
  else
    match spl with
    | none =>
      match adaptArgs (List.replicate args.length true) args with
      | Except.ok nvf => Except.ok (some (List.replicate args.length true), nvf)
      | Except.error e => Except.error e
    | some l =>
      if l.length = args.length then
        match adaptArgs l args with
        | Except.ok nvf => Except.ok (some l, nvf)
        | Except.error e => Except.error e
      else Except.error "assert len(opinfo.symbolic_parameter_list) == len(args)"

/-- Embedding of `parse_args_fusion_execution(fd, opinfo, *args)`:
`[a for is_symbolic, a in zip(opinfo.symbolic_parameter_list, args) if is_symbolic]`.
When `symbolic_parameter_list` is still `None`, Python's `zip` raises
`TypeError: 'NoneType' object is not iterable`. -/
def parse_args_fusion_execution (spl : Option (List Bool)) (args : List Arg) :
    Except String (List Arg) :=
  match spl with
  | none => Except.error "TypeError: zip argument is None, not iterable"
  | some l => Except.ok ((l.zip args).filterMap fun p => if p.1 then some p.2 else none)

/-- The arguments sitting at symbolic-marked positions, in order. -/
def symbolic_filter (l : List Bool) (args : List Arg) : List Arg :=
  (l.zip args).filterMap fun p => if p.1 then some p.2 else none

/-- The entries of `nvf_args` sitting at symbolic-marked positions, in order. -/
def symbolic_sublist (l : List Bool) (nvf : List NvfArg) : List NvfArg :=
  (l.zip nvf).filterMap fun p => if p.1 then some p.2 else none

/-! ## Random tensors (`pytest_input_generators.py`)

All valid-sample generators build tensors with `torch.testing.make_tensor`,
which draws values at random from the process-global torch RNG.  We thread
that RNG as an explicit state: each `make_tensor` call consumes the state
and stamps the produced tensor with a fresh abstract value tag.  A tensor
records the metadata the generators choose — shape, the
`noncontiguous=True` flag, an `as_strided` layout, and the `low`/`high`
bounds passed down — plus the random value tag. -/

/-- Explicit stand-in for the process-global torch RNG state. -/
structure RNG where
  seed : Nat
deriving DecidableEq

/-- A tensor as produced by the generators: layout metadata chosen by the
generator plus one abstract random value tag drawn from the RNG
(standing for the tensor's random contents). -/
structure Tensor where
  shape : List Nat
  noncontiguous : Bool
  strides : Option (List Nat)
  offset : Nat
  low : Option ℚ
  high : Option ℚ
  value : Nat
deriving DecidableEq

/-- Embedding of one `make_tensor(shape, ..., low=low, high=high,
noncontiguous=noncont)` call: stamps the next random value tag and
advances the RNG. -/
def make_arg (low high : Option ℚ) (noncont : Bool) (shape : List Nat) (g : RNG) :
    Tensor × RNG :=
  (⟨shape, noncont, none, 0, low, high, g.seed⟩, ⟨g.seed + 1⟩)

/-- Embedding of `t.as_strided(shape, strides, offset)`. -/
def as_strided (t : Tensor) (shape strides : List Nat) (offset : Nat) : Tensor :=
  ⟨shape, t.noncontiguous, some strides, offset, t.low, t.high, t.value⟩

/-! ## Elementwise-unary generator -/

/-- The operator's numeric domain carried by an `OpInfo`
(`op.domain.low` / `op.domain.high`, each possibly `None`). -/
structure Domain where
  low : Option ℚ
  high : Option ℚ
deriving DecidableEq

/-- `low = None if op.domain.low is None else max(-9, op.domain.low)`
(line 24 of `pytest_input_generators.py`). -/
def elementwise_unary_low (dom : Domain) : Option ℚ :=
  match dom.low with
  | none => none
  | some l => some (max (-9) l)

/-- `high = None if op.domain.high is None else min(9, op.domain.high)`
(line 25 of `pytest_input_generators.py`). -/
def elementwise_unary_high (dom : Domain) : Option ℚ :=
  match dom.high with
  | none => none
  | some h => some (min 9 h)

/-- The fixed shape battery of `elementwise_unary_generator`
(scalar, 1-D, 2-D, two large shapes, 3-D). -/
def eug_shapes : List (List Nat) :=
  [[], [11], [4, 4], [1024, 1024], [64, 64, 64]]

/-- One `(shape, strides, offset)` entry of the arbitrarily-strided cases. -/
structure StridedCase where
  shape : List Nat
  strides : List Nat
  offset : Nat
deriving DecidableEq

/-- The six arbitrarily-strided cases of `elementwise_unary_generator`. -/
def strided_cases : List StridedCase :=
  [⟨[5, 6, 2], [1, 1, 7], 2⟩,
   ⟨[5, 5, 4], [1, 1, 7], 2⟩,
   ⟨[5, 5, 2], [4, 5, 7], 3⟩,
   ⟨[5, 5, 2], [5, 5, 7], 3⟩,
   ⟨[5, 5, 2], [5, 5, 5], 3⟩,
   ⟨[9, 5, 2], [0, 1, 7], 3⟩]

/-- The largest flat index a strided case touches:
`offset + Σ_i (shape[i] - 1) * strides[i]`. -/
def strided_case_max_index (c : StridedCase) : Nat :=
  c.offset + ((c.shape.zip c.strides).map fun p => (p.1 - 1) * p.2).sum

/-- `for shape in shapes: yield SampleInput(make_arg(shape))`, threading
the RNG. -/
def drawTensors (low high : Option ℚ) (noncont : Bool) :
    List (List Nat) → RNG → List Tensor × RNG
  | [], g => ([], g)
  | s :: rest, g =>
    let p := make_arg low high noncont s g
    let q := drawTensors low high noncont rest p.2
    (p.1 :: q.1, q.2)

/-- The strided section: each case allocates a flat 500-element tensor and
views it through `as_strided(shape, strides, offset)`. -/
def drawStrided (low high : Option ℚ) :
    List StridedCase → RNG → List Tensor × RNG
  | [], g => ([], g)
  | c :: rest, g =>
    let p := make_arg low high false [500] g
    let q := drawStrided low high rest p.2
    (as_strided p.1 c.shape c.strides c.offset :: q.1, q.2)

/-- Embedding of `elementwise_unary_generator(op, dtype, requires_grad)`:
typical contiguous inputs over the shape battery, the same shapes
noncontiguous, then the six arbitrarily-strided views.  Of the `OpInfo`
only the numeric domain matters to the produced structure; `dtype` and
`requires_grad` are forwarded to `make_tensor` unchanged and are absorbed
into the abstract tensor model. -/
def elementwise_unary_generator (dom : Domain) (g : RNG) : List Tensor × RNG :=
  let low := elementwise_unary_low dom
  let high := elementwise_unary_high dom
  let typical := drawTensors low high false eug_shapes g
  let noncontig := drawTensors low high true eug_shapes typical.2
  let strided := drawStrided low high strided_cases noncontig.2
  (typical.1 ++ noncontig.1 ++ strided.1, strided.2)

/-- The layout components of a tensor — everything except the random
value tag. -/
def tensor_layout (t : Tensor) :
    List Nat × Bool × Option (List Nat) × Nat × Option ℚ × Option ℚ :=
  (t.shape, t.noncontiguous, t.strides, t.offset, t.low, t.high)

/-! ## Reduction and variance-mean generators -/

/-- One sample yielded by `reduction_generator`:
`SampleInput(make_arg(shape), dim, keepdim, dtype=dtype)` with `dtype`
always `None` in the case table, so only the first three components are
modelled. -/
structure RedSample where
  tensor : Tensor
  dim : Option (List Nat)
  keepdim : Bool
deriving DecidableEq

/-- The `(shape, dim, keepdim)` case table of `reduction_generator`
(the fourth `dtype` component is `None` throughout). -/
def reduction_cases : List (List Nat × Option (List Nat) × Bool) :=
  [([4, 4], none, false),
   ([5], none, true),
   ([5], some [0], false),
   ([8, 1, 6], some [1], true),
   ([8, 7, 5, 1], some [0, 1], true),
   ([8, 7, 5, 1], some [1, 3], false)]

/-- The yield loop of `reduction_generator`, threading the RNG.  Each
tensor is drawn with `low=-2, high=3`. -/
def drawReduction :
    List (List Nat × Option (List Nat) × Bool) → RNG → List RedSample × RNG
  | [], g => ([], g)
  | (shape, dim, keepdim) :: rest, g =>
    let p := make_arg (some (-2)) (some 3) false shape g
    let q := drawReduction rest p.2
    (⟨p.1, dim, keepdim⟩ :: q.1, q.2)

/-- Embedding of `reduction_generator(op, dtype, requires_grad)`. -/
def reduction_generator (g : RNG) : List RedSample × RNG :=
  drawReduction reduction_cases g

/-- One sample yielded by `var_mean_generator`:
`SampleInput(a, dim, correction=c, keepdim=keepdim)`. -/
structure VMSample where
  tensor : Tensor
  dim : List Nat
  correction : Nat
  keepdim : Bool
deriving DecidableEq

/-- Embedding of `var_mean_generator(op, dtype, requires_grad)`:
`itertools.product((0, 1), samples)` re-wraps every reduction sample once
per correction value, keeping the base tensor (`a = sample.args[0]`) and
keepdim flag, and replacing the axis by `tuple(range(a.ndim))` whenever
`sample.args[1]` is falsy (`None` or an empty tuple). -/
def var_mean_generator (g : RNG) : List VMSample × RNG :=
  let p := reduction_generator g
  (([0, 1].flatMap fun c => p.1.map fun s =>
    ⟨s.tensor,
     (match s.dim with
      | none => List.range s.tensor.shape.length
      | some l => if l.isEmpty then List.range s.tensor.shape.length else l),
     c, s.keepdim⟩), p.2)

/-- The variance-mean sample the specification describes for correction
`c` and base sample `s`: keep the base sample's tensor and
keep-dimensions flag, and take the base sample's axis when one was
specified, the tuple of all dimensions otherwise. -/
def var_mean_claim_wrap (c : Nat) (s : RedSample) : VMSample :=
  ⟨s.tensor,
   (match s.dim with
    | none => List.range s.tensor.shape.length
    | some l => l),
   c, s.keepdim⟩

/-! ## Error generators -/

/-- The `PrimDataType` values appearing in the error-case kwargs. -/
inductive DataType
  | Float
deriving DecidableEq

/-- The exception classes named by the error cases. -/
inductive ExType
  | runtimeError
  | typeError
deriving DecidableEq

/-- The kwargs bundle of a `define_tensor` error case. -/
structure DTKwargs where
  symbolic_sizes : List Int
  contiguity : List Bool
  dtype : Option DataType
deriving DecidableEq

/-- An `ErrorSample` of `define_tensor_error_generator`: kwargs, expected
message substring, and (optionally) an explicit expected exception class;
`none` stands for the `ErrorSample` constructor's default class. -/
structure DTErrorSample where
  kwargs : DTKwargs
  ex_str : String
  ex_type : Option ExType
deriving DecidableEq

def MINIMUM_SYMBOLIC_SIZE : Int := -1

def INT64_MAX : Int := 9223372036854775807

def MAX_TENSOR_DIMS : Nat := 8

/-- Error case (a): contiguity length does not match the
non-broadcast-dimension count. -/
def check_size_contiguity_match : DTErrorSample :=
  ⟨⟨[-1, -1], [true, true, true], some DataType.Float⟩,
   "The size of contiguity must equal to the number of non-broadcasting IterDomains",
   none⟩

/-- Error case (b), commented out of the enabled list in the source. -/
def check_empty_tensor_size : DTErrorSample :=
  ⟨⟨[], [], none⟩,
   "The specified tensor dimensionality exceeds the max tensor size for nvfuser.",
   none⟩

/-- Error case (c), commented out of the enabled list in the source. -/
def check_max_tensor_size : DTErrorSample :=
  ⟨⟨List.replicate (MAX_TENSOR_DIMS + 1) (-1), List.replicate (MAX_TENSOR_DIMS + 1) true, none⟩,
   "The specified tensor dimensionality exceeds the max tensor size for nvfuser.",
   none⟩

/-- Error case (d), upper half: a declared size of `INT64_MAX + 1`. -/
def check_above_size_range : DTErrorSample :=
  ⟨⟨[INT64_MAX + 1], [true], none⟩,
   "define_tensor(): incompatible function arguments",
   some ExType.typeError⟩

/-- Error case (d), lower half: a declared size of
`MINIMUM_SYMBOLIC_SIZE - 1`. -/
def check_below_size_range : DTErrorSample :=
  ⟨⟨[MINIMUM_SYMBOLIC_SIZE - 1], [true], none⟩,
   "The value -2 at index 0 was neither symbolic(-1), zero_element(0), broadcast(1), or static(>1)",
   none⟩

/-- The `error_cases` list of `define_tensor_error_generator`, with
`check_empty_tensor_size` and `check_max_tensor_size` commented out. -/
def define_tensor_error_cases : List DTErrorSample :=
  [check_size_contiguity_match,
   check_above_size_range,
   check_below_size_range]

/-- Embedding of `define_tensor_error_generator`: one `(10, 10)` input
tensor is drawn, then every enabled error case is yielded as
`(SampleInput(input_tensor, **es.kwargs), es.ex_type, es.ex_str)`. -/
def define_tensor_error_generator (g : RNG) :
    List (Tensor × DTKwargs × Option ExType × String) × RNG :=
  let p := make_arg none none false [10, 10] g
  (define_tensor_error_cases.map fun es => (p.1, es.kwargs, es.ex_type, es.ex_str), p.2)

/-- The axis value a reduction error case passes: either a Python float
(case 1) or a tuple of ints (cases 2-4). -/
inductive AxisSpec
  | floatAxis (q : ℚ)
  | intTuple (xs : List Int)
deriving DecidableEq

/-- One designed case of `reduction_error_generator`: an axis builder
applied to the tensor rank, the expected exception class, and the
expected message substring. -/
structure RedErrCase where
  axis_fn : Nat → AxisSpec
  ex_type : ExType
  ex_str : String

/-- Case 1: all axes must be ints — a float axis must raise `TypeError`. -/
def int_dtype_axis : RedErrCase :=
  ⟨fun dims => AxisSpec.floatAxis dims, ExType.typeError,
   "var_mean(): incompatible function arguments."⟩

/-- Case 2 (disabled): duplicate axes. -/
def duplicate_axis : RedErrCase :=
  ⟨fun _ => AxisSpec.intTuple [0, 0, 0], ExType.runtimeError,
   "Reduction axes are not unique"⟩

/-- Case 3 (disabled): axis below `-rank`. -/
def lower_bound : RedErrCase :=
  ⟨fun dims => AxisSpec.intTuple [-(dims : Int) - 1], ExType.runtimeError,
   "Reduction on invalid axis"⟩

/-- Case 4 (disabled): axis at or above `rank`. -/
def upper_bound : RedErrCase :=
  ⟨fun dims => AxisSpec.intTuple [(dims : Int)], ExType.runtimeError,
   "Reduction on invalid axis"⟩

/-- The `error_cases` list of `reduction_error_generator`; the source
enables only `int_dtype_axis` (`# TODO Fix duplicate_axis, lower_bound,
upper_bound`). -/
def reduction_error_cases : List RedErrCase :=
  [int_dtype_axis]

/-- The shape table of `reduction_error_generator`. -/
def reduction_error_shapes : List (List Nat) :=
  [[8, 1, 6], [8, 7, 5, 1]]

/-- The yield loop of `reduction_error_generator` over
`itertools.product(cases, error_cases)`: each pair draws a tensor
(`low=-2, high=3`) and yields
`SampleInput(input_tensor, axis_fn(len(shape))), ex_type, ex_str`. -/
def drawRedErr :
    List (List Nat × RedErrCase) → RNG → List (Tensor × AxisSpec × ExType × String) × RNG
  | [], g => ([], g)
  | (shape, es) :: rest, g =>
    let p := make_arg (some (-2)) (some 3) false shape g
    let q := drawRedErr rest p.2
    ((p.1, es.axis_fn shape.length, es.ex_type, es.ex_str) :: q.1, q.2)

/-- Embedding of `reduction_error_generator(op, dtype, requires_grad)`. -/
def reduction_error_generator (g : RNG) :
    List (Tensor × AxisSpec × ExType × String) × RNG :=
  drawRedErr (reduction_error_shapes.flatMap fun s =>
    reduction_error_cases.map fun e => (s, e)) g

/-! ## Snippet runners (`pytest_ops.py`)

The snippets drive the external fusion system; only their assertion
logic lives in the visible source.  Each embedding takes the outcome of
the externally-executed call (a result, or the raised exception's
message) and returns `Except.ok ()` when every assertion of the snippet
holds, `Except.error` with the snippet's own assertion message
otherwise. -/

/-- The exact substring `snippet_definition_op_in_schedule_error`
requires in the raised exception (line 92 of `pytest_ops.py`). -/
def sched_error_expected_str : String :=
  "Attempting to add to a completed definition!"

/-- Embedding of the assertion tail of
`snippet_definition_op_in_schedule_error`: the `try` block's outcome is
either the executed results (no exception) or the raised exception's
`str`; the snippet asserts an exception occurred and that its message
contains `sched_error_expected_str`. -/
def snippet_definition_op_in_schedule_error_run
    (exec_outcome : Except String (List Tensor)) : Except String Unit :=
  match exec_outcome with
  | Except.ok _ => Except.error "Expected an exception"
  | Except.error e =>
    if strContainsSub e sched_error_expected_str then Except.ok ()
    else Except.error "Failed to find correct expection error message"

/-! ### Numerical consistency

Both consistency snippets end in `torch.testing.assert_close`.  The
comparison is modelled on scalar values: a value is either NaN or a
rational, and `assert_close` resolves absent tolerances to its
dtype-based defaults.  Modelled from the spec: the reference numeric
library's closeness assertion (torch.testing.assert_close, external to
this repository) checks `|actual - expected| <= atol + rtol * |expected|`,
treats NaNs as equal only when `equal_nan` is set, checks dtype equality
unless `check_dtype=False`, and when `atol`/`rtol` are not given falls
back to dtype-based defaults (float32: rtol 1.3e-6, atol 1e-5; float64:
rtol 1e-7, atol 1e-7). -/

/-- The dtypes needed by the comparison model. -/
inductive Dtype
  | float32
  | float64
deriving DecidableEq

/-- Default relative tolerance of `assert_close` per dtype. -/
def default_rtol : Dtype → ℚ
  | Dtype.float32 => 13 / 10000000
  | Dtype.float64 => 1 / 10000000

/-- Default absolute tolerance of `assert_close` per dtype. -/
def default_atol : Dtype → ℚ
  | Dtype.float32 => 1 / 100000
  | Dtype.float64 => 1 / 10000000

/-- Absolute value on ℚ, written out so it evaluates in the kernel. -/
def ratAbs (q : ℚ) : ℚ :=
  if q < 0 then -q else q

/-- A compared value: NaN or an ordinary number. -/
inductive RVal
  | nan
  | num (q : ℚ)
deriving DecidableEq

/-- Value-level closeness of `assert_close` at resolved tolerances. -/
def valCloseAt (atol rtol : ℚ) (equal_nan : Bool) : RVal → RVal → Bool
  | RVal.nan, RVal.nan => equal_nan
  | RVal.nan, RVal.num _ => false
  | RVal.num _, RVal.nan => false
  | RVal.num a, RVal.num e => decide (ratAbs (a - e) ≤ atol + rtol * ratAbs e)

/-- `torch.testing.assert_close` on one value pair: dtype equality when
`check_dtype` is set, then value closeness at the given or
dtype-default tolerances. -/
def assert_close_model (tol_atol tol_rtol : Option ℚ) (equal_nan check_dtype : Bool)
    (actual expected : RVal) (actual_dtype expected_dtype : Dtype) : Bool :=
  let atol := match tol_atol with
    | none => default_atol expected_dtype
    | some a => a
  let rtol := match tol_rtol with
    | none => default_rtol expected_dtype
    | some r => r
  (!check_dtype || decide (actual_dtype = expected_dtype)) &&
    valCloseAt atol rtol equal_nan actual expected

/-- The comparison performed by `snippet_torch_consistency` (line 136):
`assert_close(nvfuser_result, torch_result, equal_nan=True, atol=1e-3, rtol=0)`. -/
def snippet_torch_consistency_close (actual expected : RVal)
    (actual_dtype expected_dtype : Dtype) : Bool :=
  assert_close_model (some (1 / 1000)) (some 0) true true
    actual expected actual_dtype expected_dtype

/-- The comparison performed by `snippet_jax_consistency` (line 160):
`assert_close(nvfuser_result, jax_result, equal_nan=True, check_dtype=False)`
— no explicit tolerances. -/
def snippet_jax_consistency_close (actual expected : RVal)
    (actual_dtype expected_dtype : Dtype) : Bool :=
  assert_close_model none none true false
    actual expected actual_dtype expected_dtype

/-! ## Claim theorems -/

/-- C10: every arbitrarily-strided `(shape, strides, offset)` case of
`elementwise_unary_generator` stays within the bounds of its flat
500-element source buffer: `offset + Σ_i (shape[i]-1)*strides[i] < 500`,
so no `as_strided` view addresses an element outside the allocation. -/
theorem strided_views_in_bounds :
    ∀ c ∈ strided_cases, strided_case_max_index c < 500 := by
  decide

theorem strided_views_in_bounds_witness :
    strided_case_max_index ⟨[5, 6, 2], [1, 1, 7], 2⟩ < 500 :=
  strided_views_in_bounds ⟨[5, 6, 2], [1, 1, 7], 2⟩ (by decide)

/-- C6: `define_tensor_error_generator` yields exactly the three enabled
error cases — contiguity-length mismatch for `symbolic_sizes=[-1,-1]`,
`contiguity=[True,True,True]` with the expected message "The size of
contiguity must equal to the number of non-broadcasting IterDomains"; a
declared size of `INT64_MAX + 1` expecting a `TypeError` containing
"define_tensor(): incompatible function arguments"; and a declared size
of `-2` (below the minimum symbolic size `-1`) whose expected message
contains "The value -2 at index 0" — while the empty-dimensionality and
above-8-dimensionality cases are left out of the enabled list. -/
theorem define_tensor_errors_enabled (g : RNG) :
    (define_tensor_error_generator g).1.length = 3 ∧
    (define_tensor_error_generator g).1.map (fun s => s.2) =
      [(⟨[-1, -1], [true, true, true], some DataType.Float⟩, none,
        "The size of contiguity must equal to the number of non-broadcasting IterDomains"),
       (⟨[9223372036854775808], [true], none⟩, some ExType.typeError,
        "define_tensor(): incompatible function arguments"),
       (⟨[-2], [true], none⟩, none,
        "The value -2 at index 0 was neither symbolic(-1), zero_element(0), broadcast(1), or static(>1)")] ∧
    define_tensor_error_cases =
      [check_size_contiguity_match, check_above_size_range, check_below_size_range] ∧
    strContainsSub check_below_size_range.ex_str "The value -2 at index 0" = true ∧
    INT64_MAX + 1 = 9223372036854775808 ∧
    MINIMUM_SYMBOLIC_SIZE - 1 = -2 := by
  refine ⟨rfl, rfl, rfl, by decide, by decide, by decide⟩

/-- C8: `var_mean_generator` yields one sample per (correction,
base-sample) pair with correction ranging over {0, 1} — exactly twice as
many samples as `reduction_generator` — and each yielded sample keeps
the base sample's tensor and keep-dimensions flag while its reduction
axis is the base sample's axis when one was specified and the tuple of
all dimensions otherwise. -/
theorem var_mean_rewraps_reduction (g : RNG) :
    (var_mean_generator g).1.length = 2 * (reduction_generator g).1.length ∧
    (var_mean_generator g).1 =
      [0, 1].flatMap fun c => (reduction_generator g).1.map (var_mean_claim_wrap c) := by
  exact ⟨rfl, rfl⟩

/-- C7 (amended): `reduction_error_generator` enables exactly one of its
four designed cases — the non-integer (floating-point) axis — and yields
two samples, both expecting a `TypeError` whose message contains
"incompatible function arguments": axis `3.0` for the rank-3 shape
`(8, 1, 6)` and axis `4.0` for the rank-4 shape `(8, 7, 5, 1)`. -/
theorem reduction_errors_single_case (g : RNG) :
    reduction_error_cases = [int_dtype_axis] ∧
    reduction_error_cases.length = 1 ∧
    (reduction_error_generator g).1.map (fun s => (s.1.shape, s.2.1, s.2.2.1, s.2.2.2)) =
      [([8, 1, 6], AxisSpec.floatAxis 3, ExType.typeError,
        "var_mean(): incompatible function arguments."),
       ([8, 7, 5, 1], AxisSpec.floatAxis 4, ExType.typeError,
        "var_mean(): incompatible function arguments.")] ∧
    strContainsSub "var_mean(): incompatible function arguments."
      "incompatible function arguments" = true := by
  refine ⟨rfl, rfl, ?_, by decide⟩
  rfl

/-- C7 (counterexample): no sample yielded by `reduction_error_generator`
pairs a rank-3 tensor with axis `4.0`; the rank-3 tensor gets axis
`3.0`. -/
theorem reduction_errors_cex :
    (reduction_error_generator ⟨0⟩).1.map (fun s => (s.1.shape.length, s.2.1)) =
      [(3, AxisSpec.floatAxis 3), (4, AxisSpec.floatAxis 4)] ∧
    decide ((3, AxisSpec.floatAxis 4) ∈
      (reduction_error_generator ⟨0⟩).1.map (fun s => (s.1.shape.length, s.2.1))) = false := by
  exact ⟨by decide, by decide⟩

/-- C1 (amended): the definition/schedule-separation snippet passes
exactly when the externally-executed misuse pattern raised an exception
whose message contains the substring
"Attempting to add to a completed definition!"; absence of an exception
or a message without that substring fails the snippet's assertions. -/
theorem sched_error_check_spec (exec_outcome : Except String (List Tensor)) :
    snippet_definition_op_in_schedule_error_run exec_outcome = Except.ok () ↔
      ∃ e, exec_outcome = Except.error e ∧
        strContainsSub e sched_error_expected_str = true := by
  cases exec_outcome with
  | ok r =>
    simp [snippet_definition_op_in_schedule_error_run]
  | error e =>
    by_cases h : strContainsSub e sched_error_expected_str = true
    · simp [snippet_definition_op_in_schedule_error_run, h]
    · simp [snippet_definition_op_in_schedule_error_run, h]

/-- C1 (counterexample): the snippet accepts an exception whose message
merely contains the capitalized, exclamation-terminated substring — at a
message that is not equal to the lowercase string
"attempting to add to a completed definition" the check still passes, so
the snippet does not require message equality with that string. -/
theorem sched_error_check_cex :
    snippet_definition_op_in_schedule_error_run
      (Except.error "RuntimeError: Attempting to add to a completed definition! Fusion is defined.") =
      Except.ok () ∧
    decide ("RuntimeError: Attempting to add to a completed definition! Fusion is defined." =
      "attempting to add to a completed definition") = false ∧
    decide (sched_error_expected_str = "attempting to add to a completed definition") = false := by
  refine ⟨rfl, by decide, by decide⟩

/-- `ratAbs` agrees with the standard absolute value. -/
theorem ratAbs_eq_abs (q : ℚ) : ratAbs q = |q| := by
  unfold ratAbs
  rcases lt_or_le q 0 with h | h
  · rw [if_pos h, abs_of_neg h]
  · rw [if_neg (not_lt.mpr h), abs_of_nonneg h]

/-- C2 (amended): the Pytorch-path comparison asserts closeness with
absolute tolerance 1e-3, relative tolerance 0, NaN equal to NaN, and
dtype equality; the Jax-path comparison asserts closeness with NaN equal
to NaN and dtype checking disabled but at `assert_close`'s dtype-based
default tolerances (float32: atol 1e-5, rtol 1.3e-6), not at
atol 1e-3 / rtol 0. -/
theorem consistency_close_spec (a e : ℚ) :
    (snippet_torch_consistency_close (RVal.num a) (RVal.num e) Dtype.float32 Dtype.float32 = true ↔
      ratAbs (a - e) ≤ 1 / 1000) ∧
    (snippet_jax_consistency_close (RVal.num a) (RVal.num e) Dtype.float32 Dtype.float32 = true ↔
      ratAbs (a - e) ≤ 1 / 100000 + (13 / 10000000) * ratAbs e) ∧
    snippet_torch_consistency_close RVal.nan RVal.nan Dtype.float32 Dtype.float32 = true ∧
    snippet_jax_consistency_close RVal.nan RVal.nan Dtype.float32 Dtype.float32 = true ∧
    snippet_jax_consistency_close (RVal.num 0) (RVal.num 0) Dtype.float32 Dtype.float64 = true ∧
    snippet_torch_consistency_close (RVal.num 0) (RVal.num 0) Dtype.float32 Dtype.float64 = false := by
  refine ⟨?_, ?_, ?_, ?_, ?_, ?_⟩
  · simp only [snippet_torch_consistency_close, assert_close_model, valCloseAt,
      Bool.not_true, Bool.false_or, Bool.and_eq_true, decide_eq_true_eq, true_and]
    rw [zero_mul, add_zero]
  · simp only [snippet_jax_consistency_close, assert_close_model, valCloseAt,
      Bool.not_false, Bool.true_or, Bool.true_and, decide_eq_true_eq,
      default_atol, default_rtol]
  · simp [snippet_torch_consistency_close, assert_close_model, valCloseAt]
  · simp [snippet_jax_consistency_close, assert_close_model, valCloseAt]
  · simp only [snippet_jax_consistency_close, assert_close_model, valCloseAt,
      Bool.not_false, Bool.true_or, Bool.true_and, decide_eq_true_eq,
      default_atol, default_rtol]
    rw [ratAbs_eq_abs, ratAbs_eq_abs]
    norm_num
  · simp [snippet_torch_consistency_close, assert_close_model, valCloseAt]

/-- C2 (counterexample): a result differing from the reference by 1/2000
passes the Pytorch-path comparison (atol 1e-3) and fails the Jax-path
comparison, so the Jax path does not compare with absolute tolerance
1e-3 / relative tolerance 0. -/
theorem consistency_close_cex :
    snippet_torch_consistency_close (RVal.num 0) (RVal.num (1 / 2000))
      Dtype.float32 Dtype.float32 = true ∧
    snippet_jax_consistency_close (RVal.num 0) (RVal.num (1 / 2000))
      Dtype.float32 Dtype.float32 = false := by
  constructor
  · simp only [snippet_torch_consistency_close, assert_close_model, valCloseAt,
      Bool.not_true, Bool.false_or, Bool.and_eq_true, decide_eq_true_eq, true_and]
    rw [ratAbs_eq_abs, ratAbs_eq_abs,
      show ((0 : ℚ) - 1 / 2000) = -(1 / 2000) by ring, abs_neg,
      abs_of_nonneg (by norm_num : (0 : ℚ) ≤ 1 / 2000)]
    norm_num
  · simp only [snippet_jax_consistency_close, assert_close_model, valCloseAt,
      Bool.not_false, Bool.true_or, Bool.true_and, default_atol, default_rtol,
      decide_eq_false_iff_not]
    rw [ratAbs_eq_abs, ratAbs_eq_abs,
      show ((0 : ℚ) - 1 / 2000) = -(1 / 2000) by ring, abs_neg,
      abs_of_nonneg (by norm_num : (0 : ℚ) ≤ 1 / 2000)]
    norm_num

/-- C3 (amended): the elementwise-unary generator clamps each bound that
the operator's domain does declare — a present low bound becomes
`max(-9, low)` (hence at least -9) and a present high bound becomes
`min(9, high)` (hence at most 9) — but an absent (`None`) domain bound
is passed through as `None`, with no clamping to [-9, 9] applied by the
generator. -/
theorem eug_domain_clamp (dom : Domain) :
    (∀ l, elementwise_unary_low dom = some l →
      -9 ≤ l ∧ ∃ q, dom.low = some q ∧ l = max (-9) q) ∧
    (∀ h, elementwise_unary_high dom = some h →
      h ≤ 9 ∧ ∃ q, dom.high = some q ∧ h = min 9 q) ∧
    (dom.low = none → elementwise_unary_low dom = none) ∧
    (dom.high = none → elementwise_unary_high dom = none) := by
  obtain ⟨dl, dh⟩ := dom
  refine ⟨?_, ?_, ?_, ?_⟩
  · intro l hl
    cases dl with
    | none => simp [elementwise_unary_low] at hl
    | some q =>
      simp [elementwise_unary_low] at hl
      exact ⟨hl ▸ le_max_left (-9) q, q, rfl, hl.symm⟩
  · intro h hh
    cases dh with
    | none => simp [elementwise_unary_high] at hh
    | some q =>
      simp [elementwise_unary_high] at hh
      exact ⟨hh ▸ min_le_left 9 q, q, rfl, hh.symm⟩
  · intro hn
    simp only at hn
    rw [hn]
    rfl
  · intro hn
    simp only at hn
    rw [hn]
    rfl

theorem eug_domain_clamp_witness :
    (elementwise_unary_low ⟨some (-20), some 20⟩ = some (-9) ∧
      -9 ≤ (-9 : ℚ) ∧ ∃ q, (some (-20) : Option ℚ) = some q ∧ (-9 : ℚ) = max (-9) q) ∧
    (elementwise_unary_high ⟨some (-20), some 20⟩ = some 9 ∧
      (9 : ℚ) ≤ 9 ∧ ∃ q, (some (20) : Option ℚ) = some q ∧ (9 : ℚ) = min 9 q) :=
  ⟨⟨by norm_num [elementwise_unary_low],
    (eug_domain_clamp ⟨some (-20), some 20⟩).1 (-9) (by norm_num [elementwise_unary_low])⟩,
   ⟨by norm_num [elementwise_unary_high],
    (eug_domain_clamp ⟨some (-20), some 20⟩).2.1 9 (by norm_num [elementwise_unary_high])⟩⟩

/-- C3 (counterexample): for a domain with both bounds absent the
generator computes no numeric bounds at all — `low` and `high` stay
`None` — so no effective bound of at least -9 (resp. at most 9) is
produced by the generator in the absent-bound case. -/
theorem eug_domain_clamp_cex :
    (elementwise_unary_low ⟨none, none⟩).isSome = false ∧
    (elementwise_unary_high ⟨none, none⟩).isSome = false := by
  exact ⟨rfl, rfl⟩

/-- C9 (amended): re-invoking `elementwise_unary_generator` with the same
`(operator, dtype, requires_grad)` arguments yields sequences of the same
length with pairwise equal layouts — shapes, contiguity flags, strides,
offsets and bounds — whatever the RNG states; the tensors' random values
come from the global RNG and are not determined by those arguments. -/
theorem eug_restartable_structure (dom : Domain) (g1 g2 : RNG) :
    (elementwise_unary_generator dom g1).1.map tensor_layout =
      (elementwise_unary_generator dom g2).1.map tensor_layout ∧
    (elementwise_unary_generator dom g1).1.length =
      (elementwise_unary_generator dom g2).1.length := by
  exact ⟨rfl, rfl⟩

/-- C9 (counterexample): two successive invocations of
`elementwise_unary_generator` with identical arguments — the second
starting from the global RNG state the first left behind (16 draws
later) — produce sequences that are not equal: the tensors' random
values differ. -/
theorem eug_restartable_cex :
    (elementwise_unary_generator ⟨none, none⟩ ⟨0⟩).2 = ⟨16⟩ ∧
    decide ((elementwise_unary_generator ⟨none, none⟩ ⟨0⟩).1 =
      (elementwise_unary_generator ⟨none, none⟩ ⟨16⟩).1) = false := by
  exact ⟨rfl, by decide⟩

/-- C4 (amended): `parse_inputs_fusion_definition` leaves the descriptor's
`symbolic_parameter_list` unchanged except in one case: when the field is
`None` and the argument list is nonempty it is overwritten with the
all-symbolic default `[True] * len(args)` — so the descriptor after a
successful call differs from the descriptor before it exactly in that
first-use defaulting. -/
theorem parse_inputs_descriptor_update (spl : Option (List Bool)) (args : List Arg)
    (out : Option (List Bool) × List NvfArg)
    (hok : parse_inputs_fusion_definition spl args = Except.ok out) :
    out.1 = if args.isEmpty then spl
            else some (spl.getD (List.replicate args.length true)) := by
  unfold parse_inputs_fusion_definition at hok
  split at hok
  next hz =>
    obtain rfl : args = [] := List.length_eq_zero.mp hz
    rw [← Except.ok.inj hok]
    rfl
  next hz =>
    have hne : args.isEmpty = false := by
      cases args with
      | nil => exact absurd rfl hz
      | cons a rest => rfl
    split at hok
    next =>
      split at hok
      next r h =>
        rw [← Except.ok.inj hok]
        simp [hne]
      next e h =>
        exact absurd hok (by simp)
    next l =>
      split at hok
      next hl =>
        split at hok
        next r h =>
          rw [← Except.ok.inj hok]
          simp [hne]
        next e h =>
          exact absurd hok (by simp)
      next hl =>
        exact absurd hok (by simp)

theorem parse_inputs_descriptor_update_witness :
    parse_inputs_fusion_definition none [Arg.scalar 7] =
      Except.ok (some [true], [NvfArg.defineScalar (Arg.scalar 7)]) ∧
    ((some [true], [NvfArg.defineScalar (Arg.scalar 7)]) :
        Option (List Bool) × List NvfArg).1 =
      (if ([Arg.scalar 7] : List Arg).isEmpty then (none : Option (List Bool))
       else some ((none : Option (List Bool)).getD
         (List.replicate ([Arg.scalar 7] : List Arg).length true))) :=
  ⟨rfl, parse_inputs_descriptor_update none [Arg.scalar 7] _ rfl⟩

/-- C4 (counterexample): calling the adapter on a descriptor whose
`symbolic_parameter_list` is `None` with one scalar argument rewrites the
field to `[True]` — the descriptor after `parse_inputs_fusion_definition`
does not equal the descriptor before it. -/
theorem parse_inputs_mutation_cex :
    parse_inputs_fusion_definition none [Arg.scalar 0] =
      Except.ok (some [true], [NvfArg.defineScalar (Arg.scalar 0)]) ∧
    (some [true] : Option (List Bool)).isSome = true ∧
    (none : Option (List Bool)).isSome = false := by
  exact ⟨rfl, rfl, rfl⟩

/-- Helper for the lock-step claim: everything `adaptArgs` guarantees on
success — one output per consumed position, symbolic positions carrying
the matching placeholder in order, concrete positions carrying the
unchanged non-tensor argument. -/
theorem adaptArgs_ok_spec (l : List Bool) :
    ∀ (args : List Arg) (nvf : List NvfArg), adaptArgs l args = Except.ok nvf →
    nvf.length = min l.length args.length ∧
    symbolic_sublist l nvf = (symbolic_filter l args).map adaptSymbolic ∧
    (∀ i (hl : i < l.length) (hi : i < args.length) (hn : i < nvf.length),
      l.get ⟨i, hl⟩ = false →
      nvf.get ⟨i, hn⟩ = NvfArg.concrete (args.get ⟨i, hi⟩) ∧
      (args.get ⟨i, hi⟩).isTensor = false) := by
  induction l with
  | nil =>
    intro args nvf hok
    obtain rfl : ([] : List NvfArg) = nvf := Except.ok.inj hok
    refine ⟨by simp, by simp [symbolic_sublist, symbolic_filter], ?_⟩
    intro i hl
    exact absurd hl (Nat.not_lt_zero i)
  | cons b bs ih =>
    intro args nvf hok
    cases args with
    | nil =>
      have hnil : ([] : List NvfArg) = nvf := by
        cases b with
        | true => exact Except.ok.inj hok
        | false => exact Except.ok.inj hok
      obtain rfl := hnil
      refine ⟨by simp, by simp [symbolic_sublist, symbolic_filter], ?_⟩
      intro i hl hi
      exact absurd hi (Nat.not_lt_zero i)
    | cons a rest =>
      cases b with
      | true =>
        unfold adaptArgs at hok
        split at hok
        next r h =>
          obtain rfl : adaptSymbolic a :: r = nvf := Except.ok.inj hok
          obtain ⟨ihlen, ihsub, ihidx⟩ := ih rest r h
          refine ⟨?_, ?_, ?_⟩
          · simp [ihlen, Nat.succ_min_succ]
          · simp only [symbolic_sublist, symbolic_filter, List.zip_cons_cons,
              List.filterMap_cons, if_pos, List.map_cons] at ihsub ⊢
            exact congrArg _ ihsub
          · intro i hl hi hn hfalse
            cases i with
            | zero => exact absurd hfalse (by simp)
            | succ j =>
              exact ihidx j (Nat.lt_of_succ_lt_succ hl) (Nat.lt_of_succ_lt_succ hi)
                (Nat.lt_of_succ_lt_succ hn) hfalse
        next e h =>
          exact absurd hok (by simp)
      | false =>
        unfold adaptArgs at hok
        split at hok
        next hat =>
          exact absurd hok (by simp)
        next hat =>
          split at hok
          next r h =>
            obtain rfl : NvfArg.concrete a :: r = nvf := Except.ok.inj hok
            obtain ⟨ihlen, ihsub, ihidx⟩ := ih rest r h
            refine ⟨?_, ?_, ?_⟩
            · simp [ihlen, Nat.succ_min_succ]
            · simp only [symbolic_sublist, symbolic_filter, List.zip_cons_cons,
                List.filterMap_cons, if_neg, List.map_cons] at ihsub ⊢
              exact ihsub
            · intro i hl hi hn hfalse
              cases i with
              | zero => exact ⟨rfl, Bool.of_not_eq_true hat⟩
              | succ j =>
                exact ihidx j (Nat.lt_of_succ_lt_succ hl) (Nat.lt_of_succ_lt_succ hi)
                  (Nat.lt_of_succ_lt_succ hn) hfalse
          next e h =>
            exact absurd hok (by simp)

/-- C5 (amended): after a successful `parse_inputs_fusion_definition` on a
nonempty argument list the descriptor's marker list is set (to the
all-symbolic default when it was unset), has the arguments' length, and
the two functions process the arguments in lock-step:
`parse_args_fusion_execution` returns exactly the arguments at
symbolic-marked positions in their original order, the definition-time
output has one entry per argument, its symbolic-position entries are
precisely the placeholders of the selected runtime arguments in the same
order, and every concrete-marked position passes its argument through
unchanged and never holds a tensor.  (`parse_args_fusion_execution`
called while the marker list is still unset does not default to
all-symbolic: it fails on `zip(None, ...)`.) -/
theorem parse_lockstep (spl : Option (List Bool)) (args : List Arg)
    (spl2 : Option (List Bool)) (nvf : List NvfArg)
    (hok : parse_inputs_fusion_definition spl args = Except.ok (spl2, nvf))
    (hne : args ≠ []) :
    ∃ l, spl2 = some l ∧ l.length = args.length ∧
      parse_args_fusion_execution spl2 args = Except.ok (symbolic_filter l args) ∧
      nvf.length = args.length ∧
      symbolic_sublist l nvf = (symbolic_filter l args).map adaptSymbolic ∧
      (∀ i (hl : i < l.length) (hi : i < args.length) (hn : i < nvf.length),
        l.get ⟨i, hl⟩ = false →
        nvf.get ⟨i, hn⟩ = NvfArg.concrete (args.get ⟨i, hi⟩) ∧
        (args.get ⟨i, hi⟩).isTensor = false) := by
  unfold parse_inputs_fusion_definition at hok
  split at hok
  next hz =>
    exact absurd (List.length_eq_zero.mp hz) hne
  next hz =>
    split at hok
    next =>
      split at hok
      next r h =>
        have hp := Except.ok.inj hok
        obtain ⟨h1, h2⟩ := Prod.mk.inj hp
        subst h1
        subst h2
        obtain ⟨slen, ssub, sidx⟩ := adaptArgs_ok_spec _ args r h
        refine ⟨List.replicate args.length true, rfl, by simp, rfl, ?_, ssub, sidx⟩
        rw [slen]
        simp
      next e h =>
        exact absurd hok (by simp)
    next l =>
      split at hok
      next hl =>
        split at hok
        next r h =>
          have hp := Except.ok.inj hok
          obtain ⟨h1, h2⟩ := Prod.mk.inj hp
          subst h1
          subst h2
          obtain ⟨slen, ssub, sidx⟩ := adaptArgs_ok_spec l args r h
          refine ⟨l, rfl, hl, rfl, ?_, ssub, sidx⟩
          rw [slen, hl, Nat.min_self]
        next e h =>
          exact absurd hok (by simp)
      next hl =>
        exact absurd hok (by simp)

theorem parse_lockstep_witness :
    parse_inputs_fusion_definition (some [true, false]) [Arg.tensor 0, Arg.scalar 5] =
      Except.ok (some [true, false], [NvfArg.fromPytorch 0, NvfArg.concrete (Arg.scalar 5)]) ∧
    ([Arg.tensor 0, Arg.scalar 5] : List Arg) ≠ [] ∧
    (∃ l, (some [true, false] : Option (List Bool)) = some l ∧
      l.length = ([Arg.tensor 0, Arg.scalar 5] : List Arg).length ∧
      parse_args_fusion_execution (some [true, false]) [Arg.tensor 0, Arg.scalar 5] =
        Except.ok (symbolic_filter l [Arg.tensor 0, Arg.scalar 5]) ∧
      ([NvfArg.fromPytorch 0, NvfArg.concrete (Arg.scalar 5)] : List NvfArg).length =
        ([Arg.tensor 0, Arg.scalar 5] : List Arg).length ∧
      symbolic_sublist l [NvfArg.fromPytorch 0, NvfArg.concrete (Arg.scalar 5)] =
        (symbolic_filter l [Arg.tensor 0, Arg.scalar 5]).map adaptSymbolic ∧
      (∀ i (hl : i < l.length)
          (hi : i < ([Arg.tensor 0, Arg.scalar 5] : List Arg).length)
          (hn : i < ([NvfArg.fromPytorch 0, NvfArg.concrete (Arg.scalar 5)] : List NvfArg).length),
        l.get ⟨i, hl⟩ = false →
        ([NvfArg.fromPytorch 0, NvfArg.concrete (Arg.scalar 5)] : List NvfArg).get ⟨i, hn⟩ =
          NvfArg.concrete (([Arg.tensor 0, Arg.scalar 5] : List Arg).get ⟨i, hi⟩) ∧
        (([Arg.tensor 0, Arg.scalar 5] : List Arg).get ⟨i, hi⟩).isTensor = false)) :=
  ⟨rfl, by decide,
    parse_lockstep (some [true, false]) [Arg.tensor 0, Arg.scalar 5]
      (some [true, false]) [NvfArg.fromPytorch 0, NvfArg.concrete (Arg.scalar 5)]
      rfl (by decide)⟩

/-- C5 (counterexample): with the marker list still unset,
`parse_args_fusion_execution` does not default to all-symbolic — it
fails with a `TypeError` (Python's `zip(None, args)`), instead of
returning the argument list. -/
theorem parse_args_unset_cex :
    parse_args_fusion_execution none [Arg.scalar 0] =
      Except.error "TypeError: zip argument is None, not iterable" ∧
    exceptIsOk (parse_args_fusion_execution none [Arg.scalar 0]) = false := by
  exact ⟨rfl, rfl⟩
